import Mathlib

/-!
Shallow embedding of the MCP server dispatcher in `src/server.js`.

The server is a single Express POST handler on `/mcp`.  The request body is
a parsed JSON value; the handler destructures `{ method, params, id, jsonrpc }`
from it, classifies the envelope (notification / invalid / call), routes calls
by method and then by tool name, and sends exactly one HTTP response per
request.  We model JSON values as an inductive type, JavaScript truthiness
explicitly, and the Express response as a value (`204 No Content` or a JSON
body with a status code).  The `save_conversation` tool delegates to an
outbound archive call; we model the environment (base URL configuration plus
the remote endpoint behaviour) as an explicit parameter, and JavaScript
exceptions as the `Except` error channel that the handler catches at the top
level.
-/

namespace McpServer

/-- JSON values as delivered by the body parser (`req.body` after
`bodyParser.json()`).  Numbers are modelled as integers, which covers every
value the claims exercise. -/
inductive JsValue : Type
  | vNull : JsValue
  | vBool : Bool → JsValue
  | vNum : Int → JsValue
  | vStr : String → JsValue
  | vArr : List JsValue → JsValue
  | vObj : List (String × JsValue) → JsValue

mutual

/-- Decidable equality of JSON values. -/
def decEqVal : (a b : JsValue) → Decidable (a = b)
  | .vNull, .vNull => isTrue rfl
  | .vBool a, .vBool b =>
    match Bool.decEq a b with
    | isTrue h => isTrue (congrArg JsValue.vBool h)
    | isFalse h => isFalse (fun hc => h (JsValue.vBool.inj hc))
  | .vNum a, .vNum b =>
    match Int.instDecidableEq a b with
    | isTrue h => isTrue (congrArg JsValue.vNum h)
    | isFalse h => isFalse (fun hc => h (JsValue.vNum.inj hc))
  | .vStr a, .vStr b =>
    match String.decEq a b with
    | isTrue h => isTrue (congrArg JsValue.vStr h)
    | isFalse h => isFalse (fun hc => h (JsValue.vStr.inj hc))
  | .vArr a, .vArr b =>
    match decEqValList a b with
    | isTrue h => isTrue (congrArg JsValue.vArr h)
    | isFalse h => isFalse (fun hc => h (JsValue.vArr.inj hc))
  | .vObj a, .vObj b =>
    match decEqFields a b with
    | isTrue h => isTrue (congrArg JsValue.vObj h)
    | isFalse h => isFalse (fun hc => h (JsValue.vObj.inj hc))
  | .vNull, .vBool _ | .vNull, .vNum _ | .vNull, .vStr _ | .vNull, .vArr _ | .vNull, .vObj _
  | .vBool _, .vNull | .vBool _, .vNum _ | .vBool _, .vStr _ | .vBool _, .vArr _ | .vBool _, .vObj _
  | .vNum _, .vNull | .vNum _, .vBool _ | .vNum _, .vStr _ | .vNum _, .vArr _ | .vNum _, .vObj _
  | .vStr _, .vNull | .vStr _, .vBool _ | .vStr _, .vNum _ | .vStr _, .vArr _ | .vStr _, .vObj _
  | .vArr _, .vNull | .vArr _, .vBool _ | .vArr _, .vNum _ | .vArr _, .vStr _ | .vArr _, .vObj _
  | .vObj _, .vNull | .vObj _, .vBool _ | .vObj _, .vNum _ | .vObj _, .vStr _ | .vObj _, .vArr _ =>
    isFalse (fun hc => JsValue.noConfusion hc)

/-- Decidable equality of JSON value lists. -/
def decEqValList : (a b : List JsValue) → Decidable (a = b)
  | [], [] => isTrue rfl
  | [], _ :: _ => isFalse (fun hc => List.noConfusion hc)
  | _ :: _, [] => isFalse (fun hc => List.noConfusion hc)
  | a :: as, b :: bs =>
    match decEqVal a b, decEqValList as bs with
    | isTrue h1, isTrue h2 => isTrue (by rw [h1, h2])
    | isFalse h1, _ => isFalse (fun hc => h1 (List.cons.inj hc).1)
    | _, isFalse h2 => isFalse (fun hc => h2 (List.cons.inj hc).2)

/-- Decidable equality of JSON object field lists. -/
def decEqFields : (a b : List (String × JsValue)) → Decidable (a = b)
  | [], [] => isTrue rfl
  | [], _ :: _ => isFalse (fun hc => List.noConfusion hc)
  | _ :: _, [] => isFalse (fun hc => List.noConfusion hc)
  | (ka, va) :: as, (kb, vb) :: bs =>
    match String.decEq ka kb, decEqVal va vb, decEqFields as bs with
    | isTrue h1, isTrue h2, isTrue h3 => isTrue (by rw [h1, h2, h3])
    | isFalse h1, _, _ => isFalse (fun hc => h1 (Prod.mk.injEq ka va kb vb ▸ (List.cons.inj hc).1).1)
    | _, isFalse h2, _ => isFalse (fun hc => h2 (Prod.mk.injEq ka va kb vb ▸ (List.cons.inj hc).1).2)
    | _, _, isFalse h3 => isFalse (fun hc => h3 (List.cons.inj hc).2)

end

instance : DecidableEq JsValue := decEqVal

/-- JavaScript truthiness of a value: `null`, `false`, `0` and `""` are
falsy, every array and object is truthy. -/
def truthyVal : JsValue → Bool
  | .vNull => false
  | .vBool b => b
  | .vNum n => n != 0
  | .vStr s => s != ""
  | .vArr _ => true
  | .vObj _ => true

/-- Truthiness of a possibly absent (`undefined`) value: `undefined` is
falsy. -/
def truthy : Option JsValue → Bool
  | none => false
  | some v => truthyVal v

/-- Property access `v.key` on a non-nullish JavaScript value: on an object
it looks the key up (first occurrence), on any other value it yields
`undefined` (`none`).  Access on `null`/`undefined` receivers throws in
JavaScript and is modelled at each use site. -/
def getField : JsValue → String → Option JsValue
  | .vObj fields, key => (fields.find? (fun p => p.1 == key)).map Prod.snd
  | _, _ => none

mutual

/-- JavaScript string interpolation of a value, as in a template literal:
`null` renders as "null", arrays join their elements with commas (with
`null` elements rendering empty), objects render as "[object Object]". -/
def jsToString : JsValue → String
  | .vNull => "null"
  | .vBool b => cond b "true" "false"
  | .vNum n => toString n
  | .vStr s => s
  | .vArr elems => jsListToString elems
  | .vObj _ => "[object Object]"

/-- Comma join of array elements for template-literal rendering. -/
def jsListToString : List JsValue → String
  | [] => ""
  | [.vNull] => ""
  | [e] => jsToString e
  | .vNull :: rest => "," ++ jsListToString rest
  | e :: rest => jsToString e ++ "," ++ jsListToString rest

end

/-- The JavaScript expression `v || null` used for the `id` echo in error
envelopes: the value itself when truthy, otherwise `null`. -/
def jsOrNull (v : Option JsValue) : JsValue :=
  match v with
  | some w => if truthyVal w then w else .vNull
  | none => .vNull

/-- The destructured request body
`const { method, params, id, jsonrpc } = req.body` — each field is `none`
when absent (`undefined`). -/
structure Envelope where
  jsonrpc : Option JsValue
  method : Option JsValue
  id : Option JsValue
  params : Option JsValue

/-- The single HTTP response emitted for a request: either
`res.status(204).end()` (no content, zero body bytes) or
`res.status(s).json(body)` (`res.json(body)` alone has status 200). -/
inductive HttpResponse : Type
  | noContent : HttpResponse
  | json : Nat → JsValue → HttpResponse
  deriving DecidableEq

/-- The remote archive endpoint reply as consumed by `save_conversation`:
`response.ok`, `responseData.error` (rendered to text) and
`responseData.url`. -/
structure FetchResponse where
  ok : Bool
  errorField : String
  url : String

/-- The environment of the archive call: the
`process.env.AI_ARCHIVES_BASE_URL` configuration value and the behaviour of
the outbound `fetch` of the conversation content and model. -/
structure ArchiveEnv where
  baseUrl : Option String
  fetch : String → String → FetchResponse

/-- JavaScript truthiness of an optional environment string, as tested by
`!process.env.AI_ARCHIVES_BASE_URL`: an absent (`undefined`) variable and
the empty string are falsy, every other string is truthy. -/
def truthyEnv : Option String → Bool
  | none => false
  | some s => s != ""

/-- The `save_conversation` helper (src/server.js lines 180-199): throws
when the base URL configuration is falsy — absent or the empty string
(`if (!process.env.AI_ARCHIVES_BASE_URL)`) — otherwise performs the
outbound call, throws with the remote error message when the response is
not ok, and returns the URL from the response body.  Throwing is modelled
as the `Except` error channel. -/
def save_conversation (env : ArchiveEnv) (content model : String) : Except String String :=
  if truthyEnv env.baseUrl then
    let responseData := env.fetch content model
    if responseData.ok then
      .ok responseData.url
    else
      .error ("Error message: " ++ responseData.errorField)
  else
    .error "Missing base url, unable to process request"

/-- The list of model provider names in the published `inputSchema` enum of
the `save_conversation` tool descriptor. -/
def modelEnum : List String :=
  ["chatgpt", "claude", "gemini", "perplexity", "meta", "grok", "deepseek", "copilot"]

/-- The `save_conversation` tool descriptor returned by `tools/list`
(src/server.js lines 74-90), verbatim. -/
def saveConversationDescriptor : JsValue :=
  .vObj [
    ("name", .vStr "save_conversation"),
    ("description", .vStr "Save this conversation to the cloud for sharing or citing"),
    ("inputSchema", .vObj [
      ("type", .vStr "object"),
      ("properties", .vObj [
        ("content", .vObj [("type", .vStr "string")]),
        ("model", .vObj [
          ("type", .vStr "string"),
          ("enum", .vArr (modelEnum.map .vStr))])]),
      ("required", .vArr [.vStr "content", .vStr "model"])])]

/-- The registered tool descriptors, in registration order. -/
def registeredTools : List JsValue := [saveConversationDescriptor]

/-- An error response envelope `{jsonrpc, id, error: {code, message}}`. -/
def jsonErr (id : JsValue) (code : Int) (message : String) : JsValue :=
  .vObj [
    ("jsonrpc", .vStr "2.0"),
    ("id", id),
    ("error", .vObj [("code", .vNum code), ("message", .vStr message)])]

/-- A success response envelope `{jsonrpc, id, result}`. -/
def resultEnvelope (id : JsValue) (result : JsValue) : JsValue :=
  .vObj [("jsonrpc", .vStr "2.0"), ("id", id), ("result", result)]

/-- The tool result wrapper `{content: [{type: "text", text: t}]}`. -/
def textResult (t : String) : JsValue :=
  .vObj [("content", .vArr [.vObj [("type", .vStr "text"), ("text", .vStr t)]])]

/-- The static `initialize` result (src/server.js lines 56-65). -/
def initializeResult : JsValue :=
  .vObj [
    ("protocolVersion", .vStr "2025-06-18"),
    ("capabilities", .vObj [("tools", .vObj [])]),
    ("serverInfo", .vObj [("name", .vStr "Remote MCP Server"), ("version", .vStr "0.1.0")])]

/-- The `tools/call` branch (src/server.js lines 95-149).  Takes the echoed
`id` and the destructured `params`; returns the response sent, or the thrown
exception message (property access on `undefined`/`null` arguments throws a
TypeError; a rejection from `save_conversation` propagates through `await`).
Mirrors `if (!params || !params.name)` including short-circuiting and
JavaScript truthiness, and the `switch (name)` with its single
`save_conversation` case. -/
def handleToolsCall (env : ArchiveEnv) (id : JsValue) (params : Option JsValue) :
    Except String HttpResponse :=
  match params with
  | none => .ok (.json 400 (jsonErr id (-32602) "Invalid params - missing tool name"))
  | some p =>
    if truthyVal p then
      match getField p "name" with
      | none => .ok (.json 400 (jsonErr id (-32602) "Invalid params - missing tool name"))
      | some nameVal =>
        if truthyVal nameVal then
          if nameVal = .vStr "save_conversation" then
            match getField p "arguments" with
            | none => .error "Cannot read properties of undefined (reading \x27content\x27)"
            | some .vNull => .error "Cannot read properties of null (reading \x27content\x27)"
            | some args =>
              match getField args "content", getField args "model" with
              | some (.vStr content), some (.vStr model) =>
                match save_conversation env content model with
                | .error msg => .error msg
                | .ok conversationUrl =>
                  .ok (.json 200 (resultEnvelope id
                    (textResult ("Conversation saved. View it at " ++ conversationUrl))))
              | _, _ =>
                .ok (.json 400 (jsonErr id (-32602)
                  "Invalid params - content and model must be strings"))
          else
            .ok (.json 400 (jsonErr id (-32601) ("Unknown tool: " ++ jsToString nameVal)))
        else
          .ok (.json 400 (jsonErr id (-32602) "Invalid params - missing tool name"))
    else
      .ok (.json 400 (jsonErr id (-32602) "Invalid params - missing tool name"))

/-- The POST /mcp handler (src/server.js lines 13-172).  Classifies the
envelope: a notification (`id === undefined && method` truthy) gets 204 and
no body; an envelope failing `!jsonrpc || !method || id === undefined` gets
the -32600 error with `id: id || null`; otherwise the method switch routes to
`initialize`, `tools/list`, `tools/call` or the -32601 default.  Any
exception thrown inside the `try` is caught and answered with
`{jsonrpc, id: id || null, error: {code: -32603, message}}` via `res.json`
(status 200). -/
def dispatch (env : ArchiveEnv) (req : Envelope) : HttpResponse :=
  let tryBody : Except String HttpResponse :=
    if req.id.isNone && truthy req.method then
      .ok .noContent
    else if !truthy req.jsonrpc || !truthy req.method || req.id.isNone then
      .ok (.json 400 (jsonErr (jsOrNull req.id) (-32600)
        "Invalid Request - missing required fields"))
    else
      let id := req.id.getD .vNull
      let methodVal := req.method.getD .vNull
      if methodVal = .vStr "initialize" then
        .ok (.json 200 (resultEnvelope id initializeResult))
      else if methodVal = .vStr "tools/list" then
        .ok (.json 200 (resultEnvelope id (.vObj [("tools", .vArr registeredTools)])))
      else if methodVal = .vStr "tools/call" then
        handleToolsCall env id req.params
      else
        .ok (.json 400 (jsonErr id (-32601) ("Method not found: " ++ jsToString methodVal)))
  match tryBody with
  | .ok r => r
  | .error msg => .json 200 (jsonErr (jsOrNull req.id) (-32603) msg)

/-- Whether a JSON object has a given key. -/
def hasKey (v : JsValue) (k : String) : Bool :=
  match v with
  | .vObj fields => fields.any (fun p => p.1 == k)
  | _ => false

/-- A well-formed response envelope: `jsonrpc` equals "2.0" and exactly one
of the `result` and `error` keys is present. -/
def isResponseEnvelope (v : JsValue) : Bool :=
  getField v "jsonrpc" == some (.vStr "2.0") && (hasKey v "result" != hasKey v "error")

/-- A concrete environment whose archive endpoint succeeds. -/
def envOk : ArchiveEnv :=
  ⟨some "https://archive.example", fun _ _ => ⟨true, "", "https://archive.example/c/1"⟩⟩

/-- A concrete environment with the base URL configuration absent. -/
def envDown : ArchiveEnv :=
  ⟨none, fun _ _ => ⟨false, "boom", ""⟩⟩

/-- A concrete environment whose base URL is configured but empty — falsy
under the `!process.env.AI_ARCHIVES_BASE_URL` test. -/
def envBlank : ArchiveEnv :=
  ⟨some "", fun _ _ => ⟨true, "", "https://archive.example/c/1"⟩⟩

/-- A well-formed `tools/call` request for `save_conversation` with string
`content` and `model` arguments. -/
def saveCallEnvelope (i : JsValue) (content model : String) : Envelope :=
  ⟨some (.vStr "2.0"), some (.vStr "tools/call"), some i,
   some (.vObj [("name", .vStr "save_conversation"),
     ("arguments", .vObj [("content", .vStr content), ("model", .vStr model)])])⟩

/-- Every error envelope the handler builds is well formed: `jsonrpc` is
"2.0" and it carries `error` but not `result`. -/
theorem isResponseEnvelope_jsonErr (i : JsValue) (c : Int) (m : String) :
    isResponseEnvelope (jsonErr i c m) = true := rfl

/-- Every success envelope the handler builds is well formed: `jsonrpc` is
"2.0" and it carries `result` but not `error`. -/
theorem isResponseEnvelope_result (i r : JsValue) :
    isResponseEnvelope (resultEnvelope i r) = true := rfl

/-- The `tools/call` branch either sends one JSON response whose body is a
well-formed response envelope, or throws (to be caught by the handler). -/
theorem handleToolsCall_shape (env : ArchiveEnv) (i : JsValue) (params : Option JsValue) :
    (∃ s b, handleToolsCall env i params = .ok (.json s b) ∧ isResponseEnvelope b = true) ∨
    (∃ m, handleToolsCall env i params = .error m) := by
  unfold handleToolsCall
  repeat' split
  all_goals
    first
      | exact Or.inl ⟨_, _, rfl, isResponseEnvelope_jsonErr _ _ _⟩
      | exact Or.inl ⟨_, _, rfl, isResponseEnvelope_result _ _⟩
      | exact Or.inr ⟨_, rfl⟩

/-- Routing of a well-shaped `tools/call` envelope: the dispatcher hands the
request to the `tools/call` branch and converts a thrown exception to the
-32603 envelope. -/
theorem dispatch_tools_call_eq (env : ArchiveEnv) (req : Envelope) (i : JsValue)
    (hj : truthy req.jsonrpc = true) (hi : req.id = some i)
    (hm : req.method = some (.vStr "tools/call")) :
    dispatch env req =
      (match handleToolsCall env i req.params with
       | .ok r => r
       | .error msg => .json 200 (jsonErr (jsOrNull (some i)) (-32603) msg)) := by
  unfold dispatch
  rw [hi, hm, hj]
  simp [truthy, truthyVal]

/-- C1, counterexample: an envelope whose `id` is absent and whose `method`
is present — but the empty string — is not treated as a notification: the
truthiness test `id === undefined && method` fails on `""`, so the request
falls through to envelope validation and receives a 400 body with error
-32600 instead of the bodiless 204. -/
theorem empty_method_notification_rejected :
    dispatch envOk ⟨some (.vStr "2.0"), some (.vStr ""), none, none⟩ ≠ .noContent ∧
    dispatch envOk ⟨some (.vStr "2.0"), some (.vStr ""), none, none⟩ =
      .json 400 (jsonErr .vNull (-32600) "Invalid Request - missing required fields") := by
  exact ⟨by decide, rfl⟩

/-- C1, amended: for every envelope whose `id` is absent and whose `method`
is present and truthy (for a string method: non-empty), dispatch produces
the NoContent outcome (HTTP 204 with zero bytes of body), regardless of
whether the method name is recognized and regardless of the archive
environment; a notification never receives a response body. -/
theorem notification_no_content (env : ArchiveEnv) (req : Envelope)
    (h1 : req.id = none) (h2 : truthy req.method = true) :
    dispatch env req = .noContent := by
  unfold dispatch
  rw [h1, h2]
  simp

/-- C1 witness: a recognized notification, an unrecognized one, and one
with a failing archive environment all get 204 No Content. -/
theorem notification_no_content_witness :
    dispatch envOk ⟨some (.vStr "2.0"), some (.vStr "notifications/initialized"), none, none⟩ =
      .noContent ∧
    dispatch envDown ⟨some (.vStr "2.0"), some (.vStr "wat"), none, none⟩ = .noContent :=
  ⟨notification_no_content envOk _ rfl rfl, notification_no_content envDown _ rfl rfl⟩

/-- C2, counterexample: a request whose `id` is present but falsy (the
number 0) and whose `jsonrpc` is missing gets the -32600 error, but the
error envelope echoes `id: null` (because of `id || null`), not the id 0
that was present in the request. -/
theorem falsy_id_not_echoed :
    dispatch envOk ⟨none, some (.vStr "m"), some (.vNum 0), none⟩ =
      .json 400 (jsonErr .vNull (-32600) "Invalid Request - missing required fields") ∧
    dispatch envOk ⟨none, some (.vStr "m"), some (.vNum 0), none⟩ ≠
      .json 400 (jsonErr (.vNum 0) (-32600) "Invalid Request - missing required fields") := by
  exact ⟨rfl, by decide⟩

/-- C2, amended: for every envelope not classified as a notification in
which any of `jsonrpc`, `method`, or `id` is missing, dispatch produces
Error(-32600, "Invalid Request - missing required fields"), and the error
envelope's `id` field equals the request's `id` when it was present and
truthy, and `null` otherwise (`id || null`). -/
theorem invalid_request_error (env : ArchiveEnv) (req : Envelope)
    (h1 : ¬(req.id = none ∧ truthy req.method = true))
    (h2 : req.jsonrpc = none ∨ req.method = none ∨ req.id = none) :
    dispatch env req =
      .json 400 (jsonErr (jsOrNull req.id) (-32600)
        "Invalid Request - missing required fields") := by
  unfold dispatch
  cases hid : req.id with
  | none =>
    have hm : truthy req.method = false := by
      cases hmt : truthy req.method
      · rfl
      · exact absurd ⟨hid, hmt⟩ h1
    rw [hm]
    simp
  | some i =>
    rcases h2 with h | h | h
    · rw [h]; simp [truthy]
    · rw [h]; simp [truthy]
    · rw [hid] at h; cases h

/-- C2 witness: a request with `method` and `id` present but `jsonrpc`
missing gets -32600 with its (truthy) id echoed. -/
theorem invalid_request_error_witness :
    dispatch envOk ⟨none, some (.vStr "tools/list"), some (.vStr "abc"), none⟩ =
      .json 400 (jsonErr (.vStr "abc") (-32600)
        "Invalid Request - missing required fields") :=
  invalid_request_error envOk ⟨none, some (.vStr "tools/list"), some (.vStr "abc"), none⟩
    (by decide) (Or.inl rfl)

/-- C3, code bug: a `tools/call` for `save_conversation` whose
`params.arguments` is absent does not get the -32602 validation error the
spec promises.  The check `typeof args.content !== 'string'` dereferences
`args` while `args` is `undefined`, so a TypeError is thrown and the
catch-all converts it to Error(-32603, "Cannot read properties of undefined
(reading \x27content\x27)") — an internal error produced instead of an
argument-validation error decided before the handler. -/
theorem missing_arguments_internal_error :
    dispatch envOk ⟨some (.vStr "2.0"), some (.vStr "tools/call"), some (.vNum 1),
      some (.vObj [("name", .vStr "save_conversation")])⟩ =
    .json 200 (jsonErr (.vNum 1) (-32603)
      "Cannot read properties of undefined (reading \x27content\x27)") := rfl

/-- C4: every envelope with `id` present gets exactly one JSON response
body (the dispatcher's single returned response, never 204), and that body
has `jsonrpc` equal to "2.0" and exactly one of the `result` and `error`
fields — on every path, including envelope-validation failures, unknown
methods/tools, argument-validation failures, and exceptions caught by the
catch-all. -/
theorem call_single_response_envelope (env : ArchiveEnv) (req : Envelope)
    (h : req.id.isSome = true) :
    ∃ s b, dispatch env req = .json s b ∧ isResponseEnvelope b = true := by
  obtain ⟨i, hi⟩ := Option.isSome_iff_exists.mp h
  by_cases hb : (!truthy req.jsonrpc || !truthy req.method) = true
  · exact ⟨400, jsonErr (jsOrNull (some i)) (-32600) "Invalid Request - missing required fields",
      by unfold dispatch; rw [hi]; simp [hb], isResponseEnvelope_jsonErr _ _ _⟩
  · by_cases h1 : req.method.getD .vNull = .vStr "initialize"
    · exact ⟨200, resultEnvelope i initializeResult,
        by unfold dispatch; rw [hi]; simp [hb, h1], isResponseEnvelope_result _ _⟩
    · by_cases h2 : req.method.getD .vNull = .vStr "tools/list"
      · exact ⟨200, resultEnvelope i (.vObj [("tools", .vArr registeredTools)]),
          by unfold dispatch; rw [hi]; simp [hb, h1, h2], isResponseEnvelope_result _ _⟩
      · by_cases h3 : req.method.getD .vNull = .vStr "tools/call"
        · rcases handleToolsCall_shape env i req.params with ⟨s, b, hh, hwf⟩ | ⟨m, hh⟩
          · exact ⟨s, b, by unfold dispatch; rw [hi]; simp [hb, h1, h2, h3, hh], hwf⟩
          · exact ⟨200, jsonErr (jsOrNull (some i)) (-32603) m,
              by unfold dispatch; rw [hi]; simp [hb, h1, h2, h3, hh],
              isResponseEnvelope_jsonErr _ _ _⟩
        · exact ⟨400, jsonErr i (-32601) ("Method not found: " ++ jsToString (req.method.getD .vNull)),
            by unfold dispatch; rw [hi]; simp [hb, h1, h2, h3], isResponseEnvelope_jsonErr _ _ _⟩

/-- C4 witness: a concrete call receives one well-formed response body. -/
theorem call_single_response_envelope_witness :
    ∃ s b, dispatch envOk ⟨some (.vStr "2.0"), some (.vStr "initialize"), some (.vNum 5), none⟩ =
      .json s b ∧ isResponseEnvelope b = true :=
  call_single_response_envelope envOk
    ⟨some (.vStr "2.0"), some (.vStr "initialize"), some (.vNum 5), none⟩ rfl

/-- C5, counterexample: a `tools/call` whose `params.name` is present but
the empty string does not reach the unknown-tool branch: `!params.name` is
true on `""`, so the request gets Error(-32602, "Invalid params - missing
tool name") rather than the claimed Error(-32601, "Unknown tool: "). -/
theorem empty_tool_name_invalid_params :
    dispatch envOk ⟨some (.vStr "2.0"), some (.vStr "tools/call"), some (.vNum 1),
        some (.vObj [("name", .vStr "")])⟩ =
      .json 400 (jsonErr (.vNum 1) (-32602) "Invalid params - missing tool name") ∧
    dispatch envOk ⟨some (.vStr "2.0"), some (.vStr "tools/call"), some (.vNum 1),
        some (.vObj [("name", .vStr "")])⟩ ≠
      .json 400 (jsonErr (.vNum 1) (-32601) "Unknown tool: ") :=
  ⟨rfl, by decide⟩

/-- C5, amended: for every `tools/call` request, if `params` is absent or
falsy, or `params.name` is absent or falsy (for a string name: empty), the
outcome is Error(-32602, "Invalid params - missing tool name"); if
`params.name` is present and truthy but does not match a registered tool
the outcome is Error(-32601, "Unknown tool: " + name). -/
theorem tools_call_name_routing (env : ArchiveEnv) (req : Envelope) (i : JsValue)
    (hj : truthy req.jsonrpc = true) (hi : req.id = some i)
    (hm : req.method = some (.vStr "tools/call")) :
    ((req.params = none ∨
        ∃ p, req.params = some p ∧
          (truthyVal p = false ∨ truthy (getField p "name") = false)) →
      dispatch env req = .json 400 (jsonErr i (-32602) "Invalid params - missing tool name")) ∧
    (∀ p nameVal, req.params = some p → truthyVal p = true →
      getField p "name" = some nameVal → truthyVal nameVal = true →
      nameVal ≠ .vStr "save_conversation" →
      dispatch env req =
        .json 400 (jsonErr i (-32601) ("Unknown tool: " ++ jsToString nameVal))) := by
  constructor
  · intro hcase
    rw [dispatch_tools_call_eq env req i hj hi hm]
    rcases hcase with hp | ⟨p, hp, hcond⟩
    · rw [hp]; rfl
    · rw [hp]
      unfold handleToolsCall
      rcases hcond with hc | hc
      · simp [hc]
      · by_cases ht : truthyVal p = true
        · cases hg : getField p "name" with
          | none => simp [ht, hg]
          | some nv =>
            rw [hg] at hc
            simp [truthy] at hc
            simp [ht, hg, hc]
        · simp [ht]
  · intro p nameVal hp htp hg htn hne
    rw [dispatch_tools_call_eq env req i hj hi hm, hp]
    unfold handleToolsCall
    simp [htp, hg, htn, hne]

/-- C5 witness: absent `params` gives -32602; a truthy unregistered name
gives -32601 with the name interpolated. -/
theorem tools_call_name_routing_witness :
    dispatch envOk ⟨some (.vStr "2.0"), some (.vStr "tools/call"), some (.vNum 3), none⟩ =
      .json 400 (jsonErr (.vNum 3) (-32602) "Invalid params - missing tool name") ∧
    dispatch envOk ⟨some (.vStr "2.0"), some (.vStr "tools/call"), some (.vNum 4),
        some (.vObj [("name", .vStr "mystery")])⟩ =
      .json 400 (jsonErr (.vNum 4) (-32601) "Unknown tool: mystery") := by
  constructor
  · exact (tools_call_name_routing envOk
      ⟨some (.vStr "2.0"), some (.vStr "tools/call"), some (.vNum 3), none⟩
      (.vNum 3) rfl rfl rfl).1 (Or.inl rfl)
  · have h := (tools_call_name_routing envOk
      ⟨some (.vStr "2.0"), some (.vStr "tools/call"), some (.vNum 4),
        some (.vObj [("name", .vStr "mystery")])⟩
      (.vNum 4) rfl rfl rfl).2
      (.vObj [("name", .vStr "mystery")]) (.vStr "mystery") rfl rfl rfl rfl (by decide)
    simpa [jsToString] using h

/-- C6, counterexample: an envelope with `jsonrpc`, `method` and `id` all
present — a Call per the data model — but with `jsonrpc` the empty string
is caught by the truthiness test `!jsonrpc` and answered with -32600, not
with the static `initialize` result. -/
theorem initialize_blank_jsonrpc_rejected :
    dispatch envOk ⟨some (.vStr ""), some (.vStr "initialize"), some (.vNum 1), none⟩ ≠
      .json 200 (resultEnvelope (.vNum 1) initializeResult) ∧
    dispatch envOk ⟨some (.vStr ""), some (.vStr "initialize"), some (.vNum 1), none⟩ =
      .json 400 (jsonErr (.vNum 1) (-32600) "Invalid Request - missing required fields") :=
  ⟨by decide, rfl⟩

/-- C6, amended: for every Call with method `initialize` whose `jsonrpc` is
truthy (non-empty), dispatch returns Success with the same fixed static
`protocolVersion`, `capabilities`, and `serverInfo` values, independent of
the request's `params` and of the archive environment. -/
theorem initialize_static_result (env : ArchiveEnv) (req : Envelope) (i : JsValue)
    (hj : truthy req.jsonrpc = true) (hi : req.id = some i)
    (hm : req.method = some (.vStr "initialize")) :
    dispatch env req = .json 200 (resultEnvelope i initializeResult) := by
  unfold dispatch
  rw [hi, hm, hj]
  simp [truthy, truthyVal]

/-- C6 witness: `initialize` with junk params and an unconfigured archive
environment still returns the static result. -/
theorem initialize_static_result_witness :
    dispatch envDown ⟨some (.vStr "2.0"), some (.vStr "initialize"), some (.vNum 2),
        some (.vObj [("weird", .vStr "params")])⟩ =
      .json 200 (resultEnvelope (.vNum 2) initializeResult) :=
  initialize_static_result envDown _ _ rfl rfl rfl

/-- C7, counterexample: a Call (all three fields present) for `tools/list`
whose `jsonrpc` is the empty string is rejected by envelope validation with
-32600 and gets no tool list at all. -/
theorem tools_list_blank_jsonrpc_rejected :
    dispatch envOk ⟨some (.vStr ""), some (.vStr "tools/list"), some (.vNum 2), none⟩ ≠
      .json 200 (resultEnvelope (.vNum 2) (.vObj [("tools", .vArr registeredTools)])) ∧
    dispatch envOk ⟨some (.vStr ""), some (.vStr "tools/list"), some (.vNum 2), none⟩ =
      .json 400 (jsonErr (.vNum 2) (-32600) "Invalid Request - missing required fields") :=
  ⟨by decide, rfl⟩

/-- C7, amended: for every Call with method `tools/list` whose `jsonrpc` is
truthy, the result's tool list is exactly `registeredTools` — the constant
list of registered descriptors in registration order.  The right-hand side
depends on neither the environment nor the rest of the request, and
`dispatch` is a pure function of its arguments, so repeated or interleaved
`tools/list` calls always return the same list: no operation mutates the
registry. -/
theorem tools_list_returns_registry (env : ArchiveEnv) (req : Envelope) (i : JsValue)
    (hj : truthy req.jsonrpc = true) (hi : req.id = some i)
    (hm : req.method = some (.vStr "tools/list")) :
    dispatch env req =
      .json 200 (resultEnvelope i (.vObj [("tools", .vArr registeredTools)])) := by
  unfold dispatch
  rw [hi, hm, hj]
  simp [truthy, truthyVal]

/-- C7 witness: two `tools/list` calls, against different environments and
with different ids, both return the registered list. -/
theorem tools_list_returns_registry_witness :
    dispatch envOk ⟨some (.vStr "2.0"), some (.vStr "tools/list"), some (.vNum 7), none⟩ =
      .json 200 (resultEnvelope (.vNum 7) (.vObj [("tools", .vArr registeredTools)])) ∧
    dispatch envDown ⟨some (.vStr "2.0"), some (.vStr "tools/list"), some (.vStr "x"), none⟩ =
      .json 200 (resultEnvelope (.vStr "x") (.vObj [("tools", .vArr registeredTools)])) :=
  ⟨tools_list_returns_registry envOk _ _ rfl rfl rfl,
   tools_list_returns_registry envDown _ _ rfl rfl rfl⟩

/-- A well-shaped `save_conversation` call passes argument validation and
reduces to the archive call: the tool branch returns the wrapped URL on
success and rethrows the archive failure otherwise. -/
theorem handleToolsCall_save (env : ArchiveEnv) (i : JsValue) (content model : String) :
    handleToolsCall env i (saveCallEnvelope i content model).params =
      (match save_conversation env content model with
       | .error msg => .error msg
       | .ok u => .ok (.json 200 (resultEnvelope i
           (textResult ("Conversation saved. View it at " ++ u))))) := rfl

/-- C8: for every valid `tools/call` of `save_conversation`, (1) a falsy
base-endpoint configuration — absent, or present but empty, exactly the
`!process.env.AI_ARCHIVES_BASE_URL` test — yields Error(-32603, ...) whose
message is the underlying failure reason, and the remote endpoint is never
reached; (2) with a truthy configuration, a failed remote call yields
Error(-32603, "Error message: " + reason) — a message including the
underlying reason as a substring; (3) with a truthy configuration, a
successful archive call yields Success whose single text content contains
the returned URL verbatim. -/
theorem save_conversation_archive_outcomes (env : ArchiveEnv) (i : JsValue)
    (content model : String) :
    (truthyEnv env.baseUrl = false →
      dispatch env (saveCallEnvelope i content model) =
        .json 200 (jsonErr (jsOrNull (some i)) (-32603)
          "Missing base url, unable to process request")) ∧
    (truthyEnv env.baseUrl = true → (env.fetch content model).ok = false →
      dispatch env (saveCallEnvelope i content model) =
        .json 200 (jsonErr (jsOrNull (some i)) (-32603)
          ("Error message: " ++ (env.fetch content model).errorField)) ∧
      ∃ pre post, "Error message: " ++ (env.fetch content model).errorField =
        pre ++ (env.fetch content model).errorField ++ post) ∧
    (truthyEnv env.baseUrl = true → (env.fetch content model).ok = true →
      dispatch env (saveCallEnvelope i content model) =
        .json 200 (resultEnvelope i
          (textResult ("Conversation saved. View it at " ++ (env.fetch content model).url))) ∧
      ∃ pre post, "Conversation saved. View it at " ++ (env.fetch content model).url =
        pre ++ (env.fetch content model).url ++ post) := by
  refine ⟨?_, ?_, ?_⟩
  · intro hb
    have hsc : save_conversation env content model =
        Except.error "Missing base url, unable to process request" := by
      unfold save_conversation; rw [hb]; rfl
    rw [dispatch_tools_call_eq env (saveCallEnvelope i content model) i rfl rfl rfl,
      handleToolsCall_save, hsc]
  · intro hb hok
    have hsc : save_conversation env content model =
        Except.error ("Error message: " ++ (env.fetch content model).errorField) := by
      unfold save_conversation; rw [hb]; simp [hok]
    refine ⟨?_, "Error message: ", "", by simp⟩
    rw [dispatch_tools_call_eq env (saveCallEnvelope i content model) i rfl rfl rfl,
      handleToolsCall_save, hsc]
  · intro hb hok
    have hsc : save_conversation env content model =
        Except.ok (env.fetch content model).url := by
      unfold save_conversation; rw [hb]; simp [hok]
    refine ⟨?_, "Conversation saved. View it at ", "", by simp⟩
    rw [dispatch_tools_call_eq env (saveCallEnvelope i content model) i rfl rfl rfl,
      handleToolsCall_save, hsc]

/-- C8 witness: with the base URL absent, and equally with it configured
but empty, the call answers -32603 with the failure reason (even though the
empty-URL environment's endpoint would report success if reached); with a
succeeding archive endpoint, the text contains the returned URL. -/
theorem save_conversation_archive_outcomes_witness :
    dispatch envDown (saveCallEnvelope (.vNum 1) "hello" "claude") =
      .json 200 (jsonErr (.vNum 1) (-32603) "Missing base url, unable to process request") ∧
    dispatch envBlank (saveCallEnvelope (.vNum 3) "hello" "claude") =
      .json 200 (jsonErr (.vNum 3) (-32603) "Missing base url, unable to process request") ∧
    dispatch envOk (saveCallEnvelope (.vNum 2) "hello" "claude") =
      .json 200 (resultEnvelope (.vNum 2)
        (textResult "Conversation saved. View it at https://archive.example/c/1")) :=
  ⟨(save_conversation_archive_outcomes envDown (.vNum 1) "hello" "claude").1 rfl,
   (save_conversation_archive_outcomes envBlank (.vNum 3) "hello" "claude").1 rfl,
   ((save_conversation_archive_outcomes envOk (.vNum 2) "hello" "claude").2.2 rfl rfl).1⟩

/-- C9, counterexample: no `add` tool is registered: the `tools/call`
naming `add` with a=2 and b=3 reaches the tool switch default and is
answered with Error(-32601, "Unknown tool: add"), not with Success
"Result: 5". -/
theorem add_call_not_executed :
    dispatch envOk ⟨some (.vStr "2.0"), some (.vStr "tools/call"), some (.vNum 1),
        some (.vObj [("name", .vStr "add"),
          ("arguments", .vObj [("a", .vNum 2), ("b", .vNum 3)])])⟩ =
      .json 400 (jsonErr (.vNum 1) (-32601) "Unknown tool: add") ∧
    dispatch envOk ⟨some (.vStr "2.0"), some (.vStr "tools/call"), some (.vNum 1),
        some (.vObj [("name", .vStr "add"),
          ("arguments", .vObj [("a", .vNum 2), ("b", .vNum 3)])])⟩ ≠
      .json 200 (resultEnvelope (.vNum 1) (textResult "Result: 5")) :=
  ⟨rfl, by decide⟩

/-- C9, amended: `add` is not a registered tool, so every `tools/call`
naming `add` — whatever its arguments, numeric or string — yields
Error(-32601, "Unknown tool: add"); its handler never runs and no -32602
argument validation is performed for it. -/
theorem add_tool_always_unknown (env : ArchiveEnv) (req : Envelope) (i p : JsValue)
    (hj : truthy req.jsonrpc = true) (hi : req.id = some i)
    (hm : req.method = some (.vStr "tools/call")) (hp : req.params = some p)
    (ht : truthyVal p = true) (hn : getField p "name" = some (.vStr "add")) :
    dispatch env req = .json 400 (jsonErr i (-32601) "Unknown tool: add") := by
  rw [dispatch_tools_call_eq env req i hj hi hm, hp]
  unfold handleToolsCall
  simp [ht, hn, jsToString]
  rfl

/-- C9 witness: `add(2, 3)` and `add` with `a` given as a string both get
"Unknown tool: add". -/
theorem add_tool_always_unknown_witness :
    dispatch envOk ⟨some (.vStr "2.0"), some (.vStr "tools/call"), some (.vNum 8),
        some (.vObj [("name", .vStr "add"),
          ("arguments", .vObj [("a", .vNum 2), ("b", .vNum 3)])])⟩ =
      .json 400 (jsonErr (.vNum 8) (-32601) "Unknown tool: add") ∧
    dispatch envOk ⟨some (.vStr "2.0"), some (.vStr "tools/call"), some (.vNum 9),
        some (.vObj [("name", .vStr "add"),
          ("arguments", .vObj [("a", .vStr "2"), ("b", .vNum 3)])])⟩ =
      .json 400 (jsonErr (.vNum 9) (-32601) "Unknown tool: add") :=
  ⟨add_tool_always_unknown envOk
      ⟨some (.vStr "2.0"), some (.vStr "tools/call"), some (.vNum 8),
        some (.vObj [("name", .vStr "add"),
          ("arguments", .vObj [("a", .vNum 2), ("b", .vNum 3)])])⟩
      (.vNum 8) _ rfl rfl rfl rfl rfl rfl,
   add_tool_always_unknown envOk
      ⟨some (.vStr "2.0"), some (.vStr "tools/call"), some (.vNum 9),
        some (.vObj [("name", .vStr "add"),
          ("arguments", .vObj [("a", .vStr "2"), ("b", .vNum 3)])])⟩
      (.vNum 9) _ rfl rfl rfl rfl rfl rfl⟩

/-- C10: in a valid `tools/call` of `save_conversation` the `model`
argument is only checked to be a string.  A string outside the enum of
known providers declared in the published inputSchema (`modelEnum`) passes
validation: the outcome is decided entirely by the archive call on that
very `model` value (it is forwarded, success wrapped or failure converted
to -32603), and is never the -32602 argument-type rejection. -/
theorem model_outside_enum_forwarded (env : ArchiveEnv) (i : JsValue)
    (content model : String) (_henum : model ∉ modelEnum) :
    dispatch env (saveCallEnvelope i content model) =
      (match save_conversation env content model with
       | .ok url => .json 200 (resultEnvelope i
           (textResult ("Conversation saved. View it at " ++ url)))
       | .error msg => .json 200 (jsonErr (jsOrNull (some i)) (-32603) msg)) ∧
    dispatch env (saveCallEnvelope i content model) ≠
      .json 400 (jsonErr i (-32602) "Invalid params - content and model must be strings") := by
  have hmain : dispatch env (saveCallEnvelope i content model) =
      (match save_conversation env content model with
       | .ok url => .json 200 (resultEnvelope i
           (textResult ("Conversation saved. View it at " ++ url)))
       | .error msg => .json 200 (jsonErr (jsOrNull (some i)) (-32603) msg)) := by
    rw [dispatch_tools_call_eq env (saveCallEnvelope i content model) i rfl rfl rfl,
      handleToolsCall_save]
    cases save_conversation env content model <;> rfl
  refine ⟨hmain, ?_⟩
  rw [hmain]
  cases save_conversation env content model <;> simp

/-- C10 witness: the string "mistral" is outside the declared enum, yet the
call succeeds and returns the archive URL. -/
theorem model_outside_enum_forwarded_witness :
    ("mistral" ∉ modelEnum) ∧
    dispatch envOk (saveCallEnvelope (.vNum 6) "conv" "mistral") =
      .json 200 (resultEnvelope (.vNum 6)
        (textResult "Conversation saved. View it at https://archive.example/c/1")) :=
  ⟨by decide,
   ((model_outside_enum_forwarded envOk (.vNum 6) "conv" "mistral" (by decide)).1).trans rfl⟩

end McpServer
